import Mathlib

/-!
Shallow embedding of the workflow-orchestration code under `src/app`:
the leaf work units (`LlmAgent` with an `output_key`), the `SequentialAgent`
and `LoopAgent` composites, the two hand-written orchestrators
(`StoryFlowAgent._run_async_impl` in `Custom_Agent/agent.py` and
`BlogGeneratorAgent._run_async_impl` in `Blog_Generator_Custom_Agent/agent.py`)
and the `call_agent` event-consuming loops of the three entry points.

The external generation model is embedded as an oracle mapping the unit's
name and the session state it runs in to the text it produces.  One
work-unit invocation emits exactly one complete event carrying that text
(the framework's `is_final_response()` holds for every complete turn) and
writes the text under the unit's `output_key` when it declares one; prompt
text and model configuration are external collaborators with no control
flow of their own, so they do not appear.  All composites in this
repository have leaf children, so the composites are embedded over lists
of work units; the nesting of composites happens only inside the two
orchestrators, which are transcribed statement by statement.
-/

/-- Session state: the mutable keyed store shared by one run, as an
association list where a write prepends and a read returns the most recent
write for the key. -/
abbrev SessionState := List (String × String)

def SessionState.get : SessionState → String → Option String
  | [], _ => none
  | (k1, v) :: rest, k => if k1 == k then some v else SessionState.get rest k

def SessionState.set (s : SessionState) (k v : String) : SessionState :=
  (k, v) :: s

/-- The Python guard `k in state and state[k]`: the key is present with a
non-empty value (the orchestrators treat an empty string as a failed
write, since `not state[k]` is true for `""`). -/
def stateHasNonEmpty (s : SessionState) (k : String) : Bool :=
  match SessionState.get s k with
  | none => false
  | some v => v != ""

/-- One progress record: which unit produced it, its text, and whether the
framework's `is_final_response()` holds for it. -/
structure Event where
  source : String
  payload : Option String
  isFinal : Bool
deriving DecidableEq

/-- A leaf work unit: `LlmAgent(name=..., output_key=...)`.  The
`code_refactoring_agent` in `Sequenrial_Workflow_Agent/agent.py` declares
no `output_key`, hence the `Option`. -/
structure LlmAgent where
  name : String
  output_key : Option String
deriving DecidableEq

/-- The external generation capability: the text a named unit produces
when invoked in a given session state. -/
def Oracle := String → SessionState → String

/-- One invocation of a leaf unit: call the external model, store the text
under `output_key` (when declared), emit one complete event. -/
def runUnit (o : Oracle) (a : LlmAgent) (s : SessionState) : Event × SessionState :=
  let t := o a.name s
  let s1 := match a.output_key with
    | some k => SessionState.set s k t
    | none => s
  ({ source := a.name, payload := some t, isFinal := true }, s1)

/-- `SequentialAgent` semantics: run the children in declared order,
concatenating their event streams.  There is no key check between
children. -/
def runSeq (o : Oracle) : List LlmAgent → SessionState → List Event × SessionState
  | [], s => ([], s)
  | a :: rest, s =>
    let r := runUnit o a s
    let rr := runSeq o rest r.2
    (r.1 :: rr.1, rr.2)

structure SequentialAgent where
  name : String
  sub_agents : List LlmAgent

def runSequentialAgent (o : Oracle) (sa : SequentialAgent) (s : SessionState) :
    List Event × SessionState :=
  runSeq o sa.sub_agents s

structure LoopAgent where
  name : String
  sub_agents : List LlmAgent
  max_iterations : Nat

/-- `LoopAgent` semantics: run the full child list once per iteration,
exactly `max_iterations` times.  No convergence or early-exit check: no
agent in this repository ever escalates. -/
def runLoopIter (o : Oracle) (agents : List LlmAgent) :
    Nat → SessionState → List Event × SessionState
  | 0, s => ([], s)
  | n + 1, s =>
    let r := runSeq o agents s
    let rr := runLoopIter o agents n r.2
    (r.1 ++ rr.1, rr.2)

def runLoopAgent (o : Oracle) (la : LoopAgent) (s : SessionState) :
    List Event × SessionState :=
  runLoopIter o la.sub_agents la.max_iterations s

/-- Number of events a given unit contributed to a stream.  Each
invocation emits exactly one event, so this counts invocations. -/
def countInvocations (es : List Event) (nm : String) : Nat :=
  (es.filter (fun e => e.source == nm)).length

def nameCount (l : List String) (nm : String) : Nat :=
  (l.filter (fun x => x == nm)).length

/-- Depth-first name sequence of a loop over leaf children: the child
names, in declared order, once per iteration. -/
def loopNames (agents : List LlmAgent) : Nat → List String
  | 0 => []
  | n + 1 => agents.map LlmAgent.name ++ loopNames agents n

/-- The `call_agent` consuming loop shared by the three entry points:
forward (print or yield) every event that carries content; at the first
event with `is_final_response()` and content, record its text and break.
Returns the forwarded texts and the recorded result; `none` models the
"No final response received" default. -/
def consumeEvents : List Event → List String × Option String
  | [] => ([], none)
  | e :: rest =>
    match e.payload with
    | none => consumeEvents rest
    | some t =>
      if e.isFinal then ([t], some t)
      else
        let r := consumeEvents rest
        (t :: r.1, r.2)

/-- Modelled from the spec: the consumer forwards every event up to and
including the first final event and returns that final event's payload as
the workflow result. -/
def consumeClaim : List Event → List String × Option String
  | [] => ([], none)
  | e :: rest =>
    if e.isFinal then (e.payload.elim [] (fun t => [t]), e.payload)
    else
      let r := consumeClaim rest
      (e.payload.elim [] (fun t => [t]) ++ r.1, r.2)

namespace SeqWF

/-! The plain sequential pipeline of `Sequenrial_Workflow_Agent/agent.py`. -/

def code_generation_agent : LlmAgent :=
  { name := "code_generation_agent", output_key := some "generated_code" }

def code_review_agent : LlmAgent :=
  { name := "code_review_agent", output_key := some "code_review" }

def code_refactoring_agent : LlmAgent :=
  { name := "code_refactoring_agent", output_key := none }

def root_agent : SequentialAgent :=
  { name := "code_pipeline_agent",
    sub_agents := [code_generation_agent, code_review_agent, code_refactoring_agent] }

end SeqWF

namespace StoryFlow

/-! Pipeline A: `Custom_Agent/agent.py`. -/

def story_generator : LlmAgent :=
  { name := "story_generator", output_key := some "current_story" }

def critic : LlmAgent :=
  { name := "critic", output_key := some "critique" }

def reviser : LlmAgent :=
  { name := "reviser", output_key := some "current_story" }

def grammar_checker : LlmAgent :=
  { name := "grammar_checker", output_key := some "grammar_check_result" }

def tone_checker : LlmAgent :=
  { name := "tone_checker", output_key := some "tone_check_result" }

def loop_agent : LoopAgent :=
  { name := "Critique_and_revise_Loop",
    sub_agents := [critic, reviser],
    max_iterations := 2 }

def sequential_agent : SequentialAgent :=
  { name := "Story_revise",
    sub_agents := [grammar_checker, tone_checker] }

/-- `StoryFlowAgent._run_async_impl`, transcribed: run the generator; if
`current_story` is absent or empty, return early; run the critique/revise
loop, then the grammar/tone sequence; if `tone_check_result` equals
`"negative"`, run the generator once more. -/
def runStoryFlow (o : Oracle) (s : SessionState) : List Event × SessionState :=
  let r1 := runUnit o story_generator s
  if !(stateHasNonEmpty r1.2 "current_story") then ([r1.1], r1.2)
  else
    let r2 := runLoopAgent o loop_agent r1.2
    let r3 := runSequentialAgent o sequential_agent r2.2
    if SessionState.get r3.2 "tone_check_result" == some "negative" then
      let r4 := runUnit o story_generator r3.2
      (r1.1 :: r2.1 ++ r3.1 ++ [r4.1], r4.2)
    else (r1.1 :: r2.1 ++ r3.1, r3.2)

/-- Events and state after the initial generation step. -/
def stage1 (o : Oracle) (s : SessionState) : List Event × SessionState :=
  let r := runUnit o story_generator s
  ([r.1], r.2)

/-- Events and state after the critique/revise loop. -/
def stage2 (o : Oracle) (s : SessionState) : List Event × SessionState :=
  runLoopAgent o loop_agent (stage1 o s).2

/-- Events and state after the grammar/tone sequence. -/
def stage3 (o : Oracle) (s : SessionState) : List Event × SessionState :=
  runSequentialAgent o sequential_agent (stage2 o s).2

end StoryFlow

namespace BlogGen

/-! Pipeline B: `Blog_Generator_Custom_Agent/agent.py`. -/

def title_generator : LlmAgent :=
  { name := "Title_Generator", output_key := some "blog_title" }

def structure_generator : LlmAgent :=
  { name := "Structure_Generator", output_key := some "blog_structure" }

def blog_generator : LlmAgent :=
  { name := "Blog_Generator", output_key := some "blog_content" }

def seo_optimizer : LlmAgent :=
  { name := "SEO_Optimizer", output_key := some "optimized_blog_content" }

def html_generator : LlmAgent :=
  { name := "HTML_Generator", output_key := some "html_code" }

def review_agent : LlmAgent :=
  { name := "Review_Agent", output_key := some "review_result" }

def sequential_agent : SequentialAgent :=
  { name := "Blog_Title_and_Structure_Generation",
    sub_agents := [title_generator, structure_generator] }

def loop_agent : LoopAgent :=
  { name := "Blog_Generation_and_SEO_Optimization",
    sub_agents := [blog_generator, seo_optimizer],
    max_iterations := 3 }

def second_loop_agent : LoopAgent :=
  { name := "Blog_HTML_Generation_and_Review",
    sub_agents := [html_generator, review_agent],
    max_iterations := 3 }

/-- `BlogGeneratorAgent._run_async_impl`, transcribed: run the
title/structure sequence; return early if `blog_structure` is absent or
empty; run the content/SEO loop; return early if `blog_content` is absent
or empty; run the HTML/review loop.  The final `html_code` check in the
source only chooses between logging and `return` with nothing after it,
so it has no behavioral effect. -/
def runBlogGenerator (o : Oracle) (s : SessionState) : List Event × SessionState :=
  let r1 := runSequentialAgent o sequential_agent s
  if !(stateHasNonEmpty r1.2 "blog_structure") then (r1.1, r1.2)
  else
    let r2 := runLoopAgent o loop_agent r1.2
    if !(stateHasNonEmpty r2.2 "blog_content") then (r1.1 ++ r2.1, r2.2)
    else
      let r3 := runLoopAgent o second_loop_agent r2.2
      (r1.1 ++ r2.1 ++ r3.1, r3.2)

/-- Events and state after the title/structure sequence. -/
def stage1 (o : Oracle) (s : SessionState) : List Event × SessionState :=
  runSequentialAgent o sequential_agent s

/-- Events and state after the content/SEO loop. -/
def stage2 (o : Oracle) (s : SessionState) : List Event × SessionState :=
  runLoopAgent o loop_agent (stage1 o s).2

/-- Events and state after the HTML/review loop. -/
def stage3 (o : Oracle) (s : SessionState) : List Event × SessionState :=
  runLoopAgent o second_loop_agent (stage2 o s).2

/-- `call_agent(blog_topic)`: seed `blog_topic` into the session state,
run the orchestrator, consume its event stream with the shared loop.
Returns the (forwarded texts, recorded result) pair and the final state. -/
def call_agent (o : Oracle) (blog_topic : String) (s : SessionState) :
    (List String × Option String) × SessionState :=
  let s0 := SessionState.set s "blog_topic" blog_topic
  let r := runBlogGenerator o s0
  (consumeEvents r.1, r.2)

end BlogGen

/-! ### Concrete inputs used by witnesses and counterexamples -/

/-- Every unit answers `"w"`: a fully successful run. -/
def oAllW : Oracle := fun _ _ => "w"

/-- Each unit answers its own name tagged with the size of the state it
ran in, so successive writes to the same key differ. -/
def oTrace : Oracle := fun nm st => nm ++ "/" ++ Nat.repr (List.length st)

/-- The code generator produces an empty answer; everyone else succeeds. -/
def oEmptyGen : Oracle := fun nm _ => if nm == "code_generation_agent" then "" else "ok"

/-- The title generator produces an empty answer; everyone else succeeds. -/
def oTitleFail : Oracle := fun nm _ => if nm == "Title_Generator" then "" else "x"

/-- The structure generator produces an empty answer. -/
def oStructFail : Oracle := fun nm _ => if nm == "Structure_Generator" then "" else "x"

/-- The blog-content generator produces an empty answer. -/
def oContentFail : Oracle := fun nm _ => if nm == "Blog_Generator" then "" else "x"

/-- The review agent produces an empty answer; everyone else succeeds. -/
def oReviewFail : Oracle := fun nm _ => if nm == "Review_Agent" then "" else "x"

/-- The story generator produces an empty answer. -/
def oStoryFail : Oracle := fun nm _ => if nm == "story_generator" then "" else "x"

/-- The tone checker reports a negative tone; everyone else succeeds. -/
def oToneNeg : Oracle := fun nm _ => if nm == "tone_checker" then "negative" else "x"

/-- The tone checker reports a positive tone; everyone else succeeds. -/
def oTonePos : Oracle := fun nm _ => if nm == "tone_checker" then "positive" else "x"

/-- A small hand-made stream with two final events. -/
def demoEvents : List Event :=
  [{ source := "a", payload := some "1", isFinal := false },
   { source := "b", payload := some "2", isFinal := true },
   { source := "c", payload := some "3", isFinal := true }]

def demoStoryEvent : Event :=
  { source := "story_generator", payload := some "x", isFinal := true }

def demoBlogEvent : Event :=
  { source := "Title_Generator", payload := some "w", isFinal := true }

/-- Payload of the last event a given unit contributed to a stream. -/
def lastPayload (es : List Event) (nm : String) : Option String :=
  ((es.filter (fun e => e.source == nm)).getLast?).bind Event.payload

/-! ### Shared lemmas -/

theorem countInvocations_append (es1 es2 : List Event) (nm : String) :
    countInvocations (es1 ++ es2) nm = countInvocations es1 nm + countInvocations es2 nm := by
  simp [countInvocations, List.filter_append]

theorem nameCount_append (l1 l2 : List String) (nm : String) :
    nameCount (l1 ++ l2) nm = nameCount l1 nm + nameCount l2 nm := by
  simp [nameCount, List.filter_append]

theorem countInvocations_eq_nameCount (nm : String) :
    ∀ es : List Event, countInvocations es nm = nameCount (es.map Event.source) nm := by
  intro es
  induction es with
  | nil => rfl
  | cons e rest ih =>
    by_cases h : e.source == nm <;>
      simp [countInvocations, nameCount, List.filter_cons, h] at ih ⊢ <;>
      simpa [countInvocations, nameCount] using ih

theorem runSeq_sources (o : Oracle) :
    ∀ (agents : List LlmAgent) (s : SessionState),
      ((runSeq o agents s).1).map Event.source = agents.map LlmAgent.name := by
  intro agents
  induction agents with
  | nil => intro s; simp [runSeq]
  | cons a rest ih => intro s; simp [runSeq, runUnit, ih]

theorem runLoopIter_sources (o : Oracle) (agents : List LlmAgent) :
    ∀ (n : Nat) (s : SessionState),
      ((runLoopIter o agents n s).1).map Event.source = loopNames agents n := by
  intro n
  induction n with
  | zero => intro s; simp [runLoopIter, loopNames]
  | succ n ih => intro s; simp [runLoopIter, loopNames, runSeq_sources, ih]

theorem runLoopAgent_sources (o : Oracle) (la : LoopAgent) (s : SessionState) :
    ((runLoopAgent o la s).1).map Event.source = loopNames la.sub_agents la.max_iterations := by
  simp [runLoopAgent, runLoopIter_sources]

theorem loopNames_count (agents : List LlmAgent) (nm : String) :
    ∀ n, nameCount (loopNames agents n) nm = n * nameCount (agents.map LlmAgent.name) nm := by
  intro n
  induction n with
  | zero => simp [loopNames, nameCount]
  | succ n ih => simp [loopNames, nameCount_append, ih]; ring

theorem runLoopAgent_count (o : Oracle) (la : LoopAgent) (s : SessionState) (nm : String) :
    countInvocations (runLoopAgent o la s).1 nm =
      la.max_iterations * nameCount (la.sub_agents.map LlmAgent.name) nm := by
  rw [countInvocations_eq_nameCount, runLoopAgent_sources, loopNames_count]

theorem runSeq_payloads (o : Oracle) :
    ∀ (agents : List LlmAgent) (s : SessionState) (e : Event),
      e ∈ (runSeq o agents s).1 → e.payload.isSome = true := by
  intro agents
  induction agents with
  | nil => intro s e he; simp [runSeq] at he
  | cons a rest ih =>
    intro s e he
    simp only [runSeq, List.mem_cons] at he
    rcases he with he | he
    · subst he; simp [runUnit]
    · exact ih _ e he

theorem runLoopIter_payloads (o : Oracle) (agents : List LlmAgent) :
    ∀ (n : Nat) (s : SessionState) (e : Event),
      e ∈ (runLoopIter o agents n s).1 → e.payload.isSome = true := by
  intro n
  induction n with
  | zero => intro s e he; simp [runLoopIter] at he
  | succ n ih =>
    intro s e he
    simp only [runLoopIter, List.mem_append] at he
    rcases he with he | he
    · exact runSeq_payloads o agents _ e he
    · exact ih _ e he

theorem consume_eq_claim :
    ∀ es : List Event, (∀ e ∈ es, e.payload.isSome = true) →
      consumeEvents es = consumeClaim es := by
  intro es
  induction es with
  | nil => intro _; rfl
  | cons e rest ih =>
    intro h
    obtain ⟨t, ht⟩ := Option.isSome_iff_exists.mp (h e (by simp))
    by_cases hf : e.isFinal
    · simp [consumeEvents, consumeClaim, ht, hf]
    · simp [consumeEvents, consumeClaim, ht, hf,
        ih (fun x hx => h x (by simp [hx]))]

theorem consume_result_first_final :
    ∀ es : List Event, (∀ e ∈ es, e.payload.isSome = true) →
      (consumeEvents es).2 = (es.find? (fun e => e.isFinal)).bind Event.payload := by
  intro es
  induction es with
  | nil => intro _; rfl
  | cons e rest ih =>
    intro h
    obtain ⟨t, ht⟩ := Option.isSome_iff_exists.mp (h e (by simp))
    by_cases hf : e.isFinal
    · simp [consumeEvents, ht, hf, List.find?_cons]
    · simp [consumeEvents, ht, hf, List.find?_cons,
        ih (fun x hx => h x (by simp [hx]))]

/-- The orchestrator of Pipeline A, rewritten through its stage views
(definitionally equal to the transcription). -/
theorem runStoryFlow_eq_stages (o : Oracle) (s : SessionState) :
    StoryFlow.runStoryFlow o s =
      if !(stateHasNonEmpty (StoryFlow.stage1 o s).2 "current_story") then StoryFlow.stage1 o s
      else if SessionState.get (StoryFlow.stage3 o s).2 "tone_check_result" == some "negative" then
        ((StoryFlow.stage1 o s).1 ++ (StoryFlow.stage2 o s).1 ++ (StoryFlow.stage3 o s).1 ++
            [(runUnit o StoryFlow.story_generator (StoryFlow.stage3 o s).2).1],
          (runUnit o StoryFlow.story_generator (StoryFlow.stage3 o s).2).2)
      else ((StoryFlow.stage1 o s).1 ++ (StoryFlow.stage2 o s).1 ++ (StoryFlow.stage3 o s).1,
          (StoryFlow.stage3 o s).2) := rfl

/-- The orchestrator of Pipeline B, rewritten through its stage views
(definitionally equal to the transcription). -/
theorem runBlogGenerator_eq_stages (o : Oracle) (s : SessionState) :
    BlogGen.runBlogGenerator o s =
      if !(stateHasNonEmpty (BlogGen.stage1 o s).2 "blog_structure") then BlogGen.stage1 o s
      else if !(stateHasNonEmpty (BlogGen.stage2 o s).2 "blog_content") then
        ((BlogGen.stage1 o s).1 ++ (BlogGen.stage2 o s).1, (BlogGen.stage2 o s).2)
      else ((BlogGen.stage1 o s).1 ++ (BlogGen.stage2 o s).1 ++ (BlogGen.stage3 o s).1,
          (BlogGen.stage3 o s).2) := rfl

theorem story_stage1_sources (o : Oracle) (s : SessionState) :
    ((StoryFlow.stage1 o s).1).map Event.source = ["story_generator"] := rfl

theorem story_stage2_sources (o : Oracle) (s : SessionState) :
    ((StoryFlow.stage2 o s).1).map Event.source = ["critic", "reviser", "critic", "reviser"] := rfl

theorem story_stage3_sources (o : Oracle) (s : SessionState) :
    ((StoryFlow.stage3 o s).1).map Event.source = ["grammar_checker", "tone_checker"] := rfl

theorem blog_stage1_sources (o : Oracle) (s : SessionState) :
    ((BlogGen.stage1 o s).1).map Event.source = ["Title_Generator", "Structure_Generator"] := rfl

theorem blog_stage2_sources (o : Oracle) (s : SessionState) :
    ((BlogGen.stage2 o s).1).map Event.source =
      ["Blog_Generator", "SEO_Optimizer", "Blog_Generator", "SEO_Optimizer",
       "Blog_Generator", "SEO_Optimizer"] := rfl

theorem blog_stage3_sources (o : Oracle) (s : SessionState) :
    ((BlogGen.stage3 o s).1).map Event.source =
      ["HTML_Generator", "Review_Agent", "HTML_Generator", "Review_Agent",
       "HTML_Generator", "Review_Agent"] := rfl

theorem story_stage1_len (o : Oracle) (s : SessionState) : (StoryFlow.stage1 o s).1.length = 1 := rfl

theorem story_stage2_len (o : Oracle) (s : SessionState) : (StoryFlow.stage2 o s).1.length = 4 := rfl

theorem story_stage3_len (o : Oracle) (s : SessionState) : (StoryFlow.stage3 o s).1.length = 2 := rfl

theorem blog_stage1_len (o : Oracle) (s : SessionState) : (BlogGen.stage1 o s).1.length = 2 := rfl

theorem blog_stage2_len (o : Oracle) (s : SessionState) : (BlogGen.stage2 o s).1.length = 6 := rfl

theorem blog_stage3_len (o : Oracle) (s : SessionState) : (BlogGen.stage3 o s).1.length = 6 := rfl

theorem story_stage1_count_sg (o : Oracle) (s : SessionState) :
    countInvocations (StoryFlow.stage1 o s).1 "story_generator" = 1 := rfl

theorem story_stage2_count_sg (o : Oracle) (s : SessionState) :
    countInvocations (StoryFlow.stage2 o s).1 "story_generator" = 0 := rfl

theorem story_stage3_count_sg (o : Oracle) (s : SessionState) :
    countInvocations (StoryFlow.stage3 o s).1 "story_generator" = 0 := rfl

theorem get_set (st : SessionState) (k1 v k2 : String) :
    SessionState.get (SessionState.set st k1 v) k2 =
      if k1 == k2 then some v else SessionState.get st k2 := rfl

theorem stateHasNonEmpty_set (st : SessionState) (k1 v k2 : String) :
    stateHasNonEmpty (SessionState.set st k1 v) k2 =
      if k1 == k2 then (v != "") else stateHasNonEmpty st k2 := by
  rw [stateHasNonEmpty, get_set]
  by_cases h : k1 == k2 <;> simp [h, stateHasNonEmpty]

/-- Running a child list with an oracle that never answers `""` makes every
declared output key present and non-empty, and keeps every key that
already was. -/
theorem runSeq_key (o : Oracle) (ho : ∀ nm st, o nm st ≠ "") :
    ∀ (agents : List LlmAgent) (s : SessionState) (k : String),
      (stateHasNonEmpty s k = true ∨ some k ∈ agents.map LlmAgent.output_key) →
      stateHasNonEmpty (runSeq o agents s).2 k = true := by
  intro agents
  induction agents with
  | nil =>
    intro s k hk
    rcases hk with hk | hk
    · exact hk
    · simp at hk
  | cons a rest ih =>
    intro s k hk
    have hstep : stateHasNonEmpty s k = true ∨ some k ∈ List.map LlmAgent.output_key rest →
        stateHasNonEmpty (runSeq o (a :: rest) s).2 k = true := by
      intro hk1
      show stateHasNonEmpty (runSeq o rest (runUnit o a s).2).2 k = true
      rcases hk1 with hk1 | hk1
      · refine ih _ k (Or.inl ?_)
        rcases hok : a.output_key with _ | k1
        · simpa [runUnit, hok] using hk1
        · by_cases hkk : k1 == k
          · simpa [runUnit, hok, stateHasNonEmpty_set, hkk, bne_iff_ne] using ho _ _
          · simpa [runUnit, hok, stateHasNonEmpty_set, hkk] using hk1
      · exact ih _ k (Or.inr hk1)
    rcases hk with hk | hk
    · exact hstep (Or.inl hk)
    · simp only [List.map_cons, List.mem_cons] at hk
      rcases hk with hk | hk
      · rcases hok : a.output_key with _ | k1
        · rw [hok] at hk; simp at hk
        · rw [hok] at hk
          have hkk : k1 = k := by simpa using hk.symm
          refine ih _ k (Or.inl ?_)
          show stateHasNonEmpty (runUnit o a s).2 k = true
          simpa [runUnit, hok, stateHasNonEmpty_set, hkk, bne_iff_ne] using ho _ _
      · exact hstep (Or.inr hk)

/-- A loop with at least one iteration over such an oracle establishes all
its children's output keys and preserves already-present keys. -/
theorem runLoopIter_key (o : Oracle) (ho : ∀ nm st, o nm st ≠ "") (agents : List LlmAgent) :
    ∀ (n : Nat) (s : SessionState) (k : String),
      (stateHasNonEmpty s k = true ∨
        (n ≠ 0 ∧ some k ∈ agents.map LlmAgent.output_key)) →
      stateHasNonEmpty (runLoopIter o agents n s).2 k = true := by
  intro n
  induction n with
  | zero =>
    intro s k hk
    rcases hk with hk | hk
    · exact hk
    · exact absurd rfl hk.1
  | succ n ih =>
    intro s k hk
    show stateHasNonEmpty (runLoopIter o agents n (runSeq o agents s).2).2 k = true
    refine ih _ k (Or.inl ?_)
    rcases hk with hk | hk
    · exact runSeq_key o ho agents s k (Or.inl hk)
    · exact runSeq_key o ho agents s k (Or.inr hk.2)

theorem story_stage1_payloads (o : Oracle) (s : SessionState) :
    ∀ e ∈ (StoryFlow.stage1 o s).1, e.payload.isSome = true := by
  intro e he
  simp only [StoryFlow.stage1, List.mem_singleton] at he
  subst he
  simp [runUnit]

theorem runStoryFlow_payloads (o : Oracle) (s : SessionState) :
    ∀ e ∈ (StoryFlow.runStoryFlow o s).1, e.payload.isSome = true := by
  intro e he
  rw [runStoryFlow_eq_stages] at he
  split at he
  · exact story_stage1_payloads o s e he
  · split at he
    · simp only [List.mem_append, List.mem_singleton] at he
      rcases he with (((he | he) | he) | he)
      · exact story_stage1_payloads o s e he
      · exact runLoopIter_payloads o _ _ _ e he
      · exact runSeq_payloads o _ _ e he
      · subst he; simp [runUnit]
    · simp only [List.mem_append] at he
      rcases he with ((he | he) | he)
      · exact story_stage1_payloads o s e he
      · exact runLoopIter_payloads o _ _ _ e he
      · exact runSeq_payloads o _ _ e he

theorem runBlogGenerator_payloads (o : Oracle) (s : SessionState) :
    ∀ e ∈ (BlogGen.runBlogGenerator o s).1, e.payload.isSome = true := by
  intro e he
  rw [runBlogGenerator_eq_stages] at he
  split at he
  · exact runSeq_payloads o _ _ e he
  · split at he
    · simp only [List.mem_append] at he
      rcases he with he | he
      · exact runSeq_payloads o _ _ e he
      · exact runLoopIter_payloads o _ _ _ e he
    · simp only [List.mem_append] at he
      rcases he with (he | he) | he
      · exact runSeq_payloads o _ _ e he
      · exact runLoopIter_payloads o _ _ _ e he
      · exact runLoopIter_payloads o _ _ _ e he

theorem story_retry_count_sg (o : Oracle) (st : SessionState) :
    countInvocations [(runUnit o StoryFlow.story_generator st).1] "story_generator" = 1 := rfl

theorem blog_stage1_count_bg (o : Oracle) (s : SessionState) :
    countInvocations (BlogGen.stage1 o s).1 "Blog_Generator" = 0 := rfl

theorem blog_stage2_count_bg (o : Oracle) (s : SessionState) :
    countInvocations (BlogGen.stage2 o s).1 "Blog_Generator" = 3 := rfl

theorem blog_stage3_count_bg (o : Oracle) (s : SessionState) :
    countInvocations (BlogGen.stage3 o s).1 "Blog_Generator" = 0 := rfl

theorem blog_stage1_count_rev (o : Oracle) (s : SessionState) :
    countInvocations (BlogGen.stage1 o s).1 "Review_Agent" = 0 := rfl

theorem blog_stage2_count_rev (o : Oracle) (s : SessionState) :
    countInvocations (BlogGen.stage2 o s).1 "Review_Agent" = 0 := rfl

theorem blog_stage3_count_rev (o : Oracle) (s : SessionState) :
    countInvocations (BlogGen.stage3 o s).1 "Review_Agent" = 3 := rfl

theorem blog_stage1_count_html (o : Oracle) (s : SessionState) :
    countInvocations (BlogGen.stage1 o s).1 "HTML_Generator" = 0 := rfl

theorem blog_stage2_count_html (o : Oracle) (s : SessionState) :
    countInvocations (BlogGen.stage2 o s).1 "HTML_Generator" = 0 := rfl

theorem blog_stage3_count_html (o : Oracle) (s : SessionState) :
    countInvocations (BlogGen.stage3 o s).1 "HTML_Generator" = 3 := rfl

/-! ### Claims -/

/-- C1 (counterexample): the Sequential Composite does not check that the
key a child was required to write is present and non-empty before starting
the next child.  In `code_pipeline_agent`, when the code generator leaves
`generated_code` empty, the review and refactoring children still run
(the claim says the remaining children do not run). -/
theorem claim_C1_counterexample :
    SessionState.get (runSequentialAgent oEmptyGen SeqWF.root_agent []).2 "generated_code" = some "" ∧
    stateHasNonEmpty (runSequentialAgent oEmptyGen SeqWF.root_agent []).2 "generated_code" = false ∧
    countInvocations (runSequentialAgent oEmptyGen SeqWF.root_agent []).1 "code_review_agent" = 1 ∧
    countInvocations (runSequentialAgent oEmptyGen SeqWF.root_agent []).1 "code_refactoring_agent" = 1 := by
  decide

/-- C1 (amended): a Sequential Composite runs every child once, in the
declared order, unconditionally — there is no between-children key check
and no early termination; in particular `code_pipeline_agent` always
invokes all three of its children, for every oracle and session state.
The write-then-check gating exists only in the custom orchestrators
between their stages. -/
theorem claim_C1_amended :
    (∀ (sa : SequentialAgent) (o : Oracle) (s : SessionState),
        ((runSequentialAgent o sa s).1).map Event.source = sa.sub_agents.map LlmAgent.name) ∧
    (∀ (o : Oracle) (s : SessionState),
        ((runSequentialAgent o SeqWF.root_agent s).1).map Event.source =
          ["code_generation_agent", "code_review_agent", "code_refactoring_agent"]) := by
  constructor
  · intro sa o s
    exact runSeq_sources o sa.sub_agents s
  · intro o s
    rfl

/-- C2: a Loop Composite with `max_iterations = N` invokes each of its
children exactly N times in one run — as many times as the child occurs in
the list, per iteration — for every oracle and every session state (there
is no early exit or convergence check); concretely, the critique/revise
loop runs each child twice and both blog loops run each child three
times. -/
theorem claim_C2 :
    (∀ (la : LoopAgent) (o : Oracle) (s : SessionState) (nm : String),
        countInvocations (runLoopAgent o la s).1 nm =
          la.max_iterations * nameCount (la.sub_agents.map LlmAgent.name) nm) ∧
    (∀ (o : Oracle) (s : SessionState),
        countInvocations (runLoopAgent o StoryFlow.loop_agent s).1 "critic" = 2 ∧
        countInvocations (runLoopAgent o StoryFlow.loop_agent s).1 "reviser" = 2 ∧
        countInvocations (runLoopAgent o BlogGen.loop_agent s).1 "Blog_Generator" = 3 ∧
        countInvocations (runLoopAgent o BlogGen.loop_agent s).1 "SEO_Optimizer" = 3 ∧
        countInvocations (runLoopAgent o BlogGen.second_loop_agent s).1 "HTML_Generator" = 3 ∧
        countInvocations (runLoopAgent o BlogGen.second_loop_agent s).1 "Review_Agent" = 3) := by
  constructor
  · intro la o s nm
    exact runLoopAgent_count o la s nm
  · intro o s
    exact ⟨rfl, rfl, rfl, rfl, rfl, rfl⟩

/-- C3: in one run of Pipeline A that passes the initial `current_story`
check, if the tone checker leaves `tone_check_result = "negative"` the
story generator is invoked exactly twice (original plus single retry),
and if it leaves `"positive"` or `"neutral"` the story generator is
invoked exactly once. -/
theorem claim_C3 (o : Oracle) (s : SessionState)
    (h1 : stateHasNonEmpty (StoryFlow.stage1 o s).2 "current_story" = true) :
    (SessionState.get (StoryFlow.stage3 o s).2 "tone_check_result" = some "negative" →
      countInvocations (StoryFlow.runStoryFlow o s).1 "story_generator" = 2) ∧
    ((SessionState.get (StoryFlow.stage3 o s).2 "tone_check_result" = some "positive" ∨
      SessionState.get (StoryFlow.stage3 o s).2 "tone_check_result" = some "neutral") →
      countInvocations (StoryFlow.runStoryFlow o s).1 "story_generator" = 1) := by
  constructor
  · intro h2
    rw [runStoryFlow_eq_stages, h1, h2]
    simp [countInvocations_append, story_stage1_count_sg, story_stage2_count_sg,
      story_stage3_count_sg, story_retry_count_sg]
  · intro h2
    have hb : (SessionState.get (StoryFlow.stage3 o s).2 "tone_check_result" ==
        some "negative") = false := by
      rcases h2 with h2 | h2 <;> rw [h2] <;> rfl
    rw [runStoryFlow_eq_stages, h1, hb]
    simp [countInvocations_append, story_stage1_count_sg, story_stage2_count_sg,
      story_stage3_count_sg]

/-- C3 (witness): concrete negative-tone and positive-tone runs from the
empty state. -/
theorem claim_C3_witness :
    (stateHasNonEmpty (StoryFlow.stage1 oToneNeg []).2 "current_story" = true ∧
     SessionState.get (StoryFlow.stage3 oToneNeg []).2 "tone_check_result" = some "negative" ∧
     countInvocations (StoryFlow.runStoryFlow oToneNeg []).1 "story_generator" = 2) ∧
    (stateHasNonEmpty (StoryFlow.stage1 oTonePos []).2 "current_story" = true ∧
     SessionState.get (StoryFlow.stage3 oTonePos []).2 "tone_check_result" = some "positive" ∧
     countInvocations (StoryFlow.runStoryFlow oTonePos []).1 "story_generator" = 1) := by
  refine ⟨⟨by decide, by decide, (claim_C3 oToneNeg [] (by decide)).1 (by decide)⟩,
    ⟨by decide, by decide, (claim_C3 oTonePos [] (by decide)).2 (Or.inl (by decide))⟩⟩

/-- C4 (counterexample): not every stage work-unit failure halts the
Orchestrator.  When the title generator leaves its designated key
`blog_title` empty but the structure generator succeeds, Pipeline B does
not halt: the next stage's blog generator runs three times and later-stage
keys such as `blog_content` are present afterwards. -/
theorem claim_C4_counterexample :
    SessionState.get (BlogGen.stage1 oTitleFail []).2 "blog_title" = some "" ∧
    stateHasNonEmpty (BlogGen.stage1 oTitleFail []).2 "blog_title" = false ∧
    countInvocations (BlogGen.runBlogGenerator oTitleFail []).1 "Blog_Generator" = 3 ∧
    SessionState.get (BlogGen.runBlogGenerator oTitleFail []).2 "blog_content" = some "x" := by
  decide

/-- C4 (amended): the Orchestrators halt early — returning, without
raising, with only the completed stages' events and state, so that no key
from a later stage is written — exactly when the one key checked at that
stage boundary is absent or empty: `blog_structure` after Pipeline B's
first stage, `blog_content` after its second, and `current_story` after
Pipeline A's first stage.  A work unit whose own output key is not the
checked one does not halt the pipeline. -/
theorem claim_C4_amended :
    (∀ (o : Oracle) (s : SessionState),
        stateHasNonEmpty (BlogGen.stage1 o s).2 "blog_structure" = false →
        BlogGen.runBlogGenerator o s = BlogGen.stage1 o s) ∧
    (∀ (o : Oracle) (s : SessionState),
        stateHasNonEmpty (BlogGen.stage1 o s).2 "blog_structure" = true →
        stateHasNonEmpty (BlogGen.stage2 o s).2 "blog_content" = false →
        BlogGen.runBlogGenerator o s =
          ((BlogGen.stage1 o s).1 ++ (BlogGen.stage2 o s).1, (BlogGen.stage2 o s).2)) ∧
    (∀ (o : Oracle) (s : SessionState),
        stateHasNonEmpty (StoryFlow.stage1 o s).2 "current_story" = false →
        StoryFlow.runStoryFlow o s = StoryFlow.stage1 o s) := by
  refine ⟨?_, ?_, ?_⟩
  · intro o s h
    rw [runBlogGenerator_eq_stages, h]
    simp
  · intro o s h1 h2
    rw [runBlogGenerator_eq_stages, h1, h2]
    simp
  · intro o s h
    rw [runStoryFlow_eq_stages, h]
    simp

/-- C4 (witness): the three halting cases exercised concretely — a failed
structure generator, a failed blog generator, a failed story generator. -/
theorem claim_C4_witness :
    (stateHasNonEmpty (BlogGen.stage1 oStructFail []).2 "blog_structure" = false ∧
     BlogGen.runBlogGenerator oStructFail [] = BlogGen.stage1 oStructFail []) ∧
    (stateHasNonEmpty (BlogGen.stage1 oContentFail []).2 "blog_structure" = true ∧
     stateHasNonEmpty (BlogGen.stage2 oContentFail []).2 "blog_content" = false ∧
     BlogGen.runBlogGenerator oContentFail [] =
       ((BlogGen.stage1 oContentFail []).1 ++ (BlogGen.stage2 oContentFail []).1,
         (BlogGen.stage2 oContentFail []).2)) ∧
    (stateHasNonEmpty (StoryFlow.stage1 oStoryFail []).2 "current_story" = false ∧
     StoryFlow.runStoryFlow oStoryFail [] = StoryFlow.stage1 oStoryFail []) := by
  refine ⟨⟨by decide, claim_C4_amended.1 oStructFail [] (by decide)⟩,
    ⟨by decide, by decide, claim_C4_amended.2.1 oContentFail [] (by decide) (by decide)⟩,
    ⟨by decide, claim_C4_amended.2.2 oStoryFail [] (by decide)⟩⟩

/-- C5: the `call_agent` consumer forwards every event it consumes and
returns the payload of the first final event it finds, stopping there —
i.e. it agrees with the spec's description of the consumer (`consumeClaim`)
and its result is the payload of the first event with
`is_final_response()` — on any stream whose events carry content, which
every run of the two orchestrators produces. -/
theorem claim_C5 :
    (∀ es : List Event, (∀ e ∈ es, e.payload.isSome = true) →
        consumeEvents es = consumeClaim es ∧
        (consumeEvents es).2 = (es.find? (fun e => e.isFinal)).bind Event.payload) ∧
    (∀ (o : Oracle) (s : SessionState), ∀ e ∈ (StoryFlow.runStoryFlow o s).1,
        e.payload.isSome = true) ∧
    (∀ (o : Oracle) (s : SessionState), ∀ e ∈ (BlogGen.runBlogGenerator o s).1,
        e.payload.isSome = true) := by
  refine ⟨fun es h => ⟨consume_eq_claim es h, consume_result_first_final es h⟩, ?_, ?_⟩
  · intro o s e he
    exact runStoryFlow_payloads o s e he
  · intro o s e he
    exact runBlogGenerator_payloads o s e he

/-- C5 (witness): the consumer law on a small concrete stream, and
concrete events of concrete orchestrator runs carrying content. -/
theorem claim_C5_witness :
    ((∀ e ∈ demoEvents, e.payload.isSome = true) ∧
     consumeEvents demoEvents = consumeClaim demoEvents ∧
     (consumeEvents demoEvents).2 =
       (demoEvents.find? (fun e => e.isFinal)).bind Event.payload) ∧
    (demoStoryEvent ∈ (StoryFlow.runStoryFlow oTonePos []).1 ∧
     demoStoryEvent.payload.isSome = true) ∧
    (demoBlogEvent ∈ (BlogGen.runBlogGenerator oAllW []).1 ∧
     demoBlogEvent.payload.isSome = true) := by
  refine ⟨⟨by decide, ?_, ?_⟩,
    ⟨by decide, claim_C5.2.1 oTonePos [] demoStoryEvent (by decide)⟩,
    ⟨by decide, claim_C5.2.2 oAllW [] demoBlogEvent (by decide)⟩⟩
  · exact (claim_C5.1 demoEvents (by decide)).1
  · exact (claim_C5.1 demoEvents (by decide)).2

/-- C6: every run of Pipeline A performs at most 8 work-unit invocations
(1 generation + 2 iterations of 2 loop children + 2 sequence children +
at most 1 retry), and every fully successful run of Pipeline B performs
exactly 14 (2 sequence children + 3 iterations of 2 + 3 iterations of 2);
runs are total functions of the oracle and initial state, so both
pipelines terminate. -/
theorem claim_C6 :
    (∀ (o : Oracle) (s : SessionState), (StoryFlow.runStoryFlow o s).1.length ≤ 8) ∧
    (∀ (o : Oracle) (s : SessionState),
        stateHasNonEmpty (BlogGen.stage1 o s).2 "blog_structure" = true →
        stateHasNonEmpty (BlogGen.stage2 o s).2 "blog_content" = true →
        (BlogGen.runBlogGenerator o s).1.length = 14) := by
  constructor
  · intro o s
    rw [runStoryFlow_eq_stages]
    split
    · simp [story_stage1_len]
    · split <;>
        simp [List.length_append, story_stage1_len, story_stage2_len, story_stage3_len]
  · intro o s h1 h2
    rw [runBlogGenerator_eq_stages, h1, h2]
    simp [List.length_append, blog_stage1_len, blog_stage2_len, blog_stage3_len]

/-- C6 (witness): a fully successful Pipeline B run from the empty state
performs exactly 14 invocations, and a concrete Pipeline A run performs at
most 8. -/
theorem claim_C6_witness :
    (StoryFlow.runStoryFlow oAllW []).1.length ≤ 8 ∧
    stateHasNonEmpty (BlogGen.stage1 oAllW []).2 "blog_structure" = true ∧
    stateHasNonEmpty (BlogGen.stage2 oAllW []).2 "blog_content" = true ∧
    (BlogGen.runBlogGenerator oAllW []).1.length = 14 := by
  exact ⟨claim_C6.1 oAllW [], by decide, by decide,
    claim_C6.2 oAllW [] (by decide) (by decide)⟩

/-- C8: events are emitted in exactly the depth-first execution order of
the composite tree — a Sequential Composite yields its children's events
in declared order, a Loop Composite yields its children's events in order
once per iteration, and the two orchestrators (on runs that pass their
stage checks) yield precisely the depth-first sequence of their stages'
work units; the semantics is single-threaded, so no two work units
execute concurrently. -/
theorem claim_C8 :
    (∀ (sa : SequentialAgent) (o : Oracle) (s : SessionState),
        ((runSequentialAgent o sa s).1).map Event.source = sa.sub_agents.map LlmAgent.name) ∧
    (∀ (la : LoopAgent) (o : Oracle) (s : SessionState),
        ((runLoopAgent o la s).1).map Event.source =
          loopNames la.sub_agents la.max_iterations) ∧
    (∀ (o : Oracle) (s : SessionState),
        stateHasNonEmpty (BlogGen.stage1 o s).2 "blog_structure" = true →
        stateHasNonEmpty (BlogGen.stage2 o s).2 "blog_content" = true →
        ((BlogGen.runBlogGenerator o s).1).map Event.source =
          ["Title_Generator", "Structure_Generator",
           "Blog_Generator", "SEO_Optimizer", "Blog_Generator", "SEO_Optimizer",
           "Blog_Generator", "SEO_Optimizer",
           "HTML_Generator", "Review_Agent", "HTML_Generator", "Review_Agent",
           "HTML_Generator", "Review_Agent"]) ∧
    (∀ (o : Oracle) (s : SessionState),
        stateHasNonEmpty (StoryFlow.stage1 o s).2 "current_story" = true →
        ((StoryFlow.runStoryFlow o s).1).map Event.source =
          ["story_generator", "critic", "reviser", "critic", "reviser",
           "grammar_checker", "tone_checker"] ++
            (if SessionState.get (StoryFlow.stage3 o s).2 "tone_check_result" ==
                some "negative" then ["story_generator"] else [])) := by
  refine ⟨?_, ?_, ?_, ?_⟩
  · intro sa o s
    exact runSeq_sources o sa.sub_agents s
  · intro la o s
    exact runLoopAgent_sources o la s
  · intro o s h1 h2
    rw [runBlogGenerator_eq_stages, h1, h2]
    simp [List.map_append, blog_stage1_sources, blog_stage2_sources, blog_stage3_sources]
  · intro o s h1
    rw [runStoryFlow_eq_stages, h1]
    cases ht : SessionState.get (StoryFlow.stage3 o s).2 "tone_check_result" ==
        some "negative" <;>
      simp [ht, List.map_append, story_stage1_sources, story_stage2_sources,
        story_stage3_sources, runUnit, StoryFlow.story_generator]

/-- C8 (witness): the depth-first order exhibited on concrete successful
runs of both orchestrators. -/
theorem claim_C8_witness :
    (stateHasNonEmpty (BlogGen.stage1 oAllW []).2 "blog_structure" = true ∧
     ((BlogGen.runBlogGenerator oAllW []).1).map Event.source =
       ["Title_Generator", "Structure_Generator",
        "Blog_Generator", "SEO_Optimizer", "Blog_Generator", "SEO_Optimizer",
        "Blog_Generator", "SEO_Optimizer",
        "HTML_Generator", "Review_Agent", "HTML_Generator", "Review_Agent",
        "HTML_Generator", "Review_Agent"]) ∧
    (stateHasNonEmpty (StoryFlow.stage1 oToneNeg []).2 "current_story" = true ∧
     ((StoryFlow.runStoryFlow oToneNeg []).1).map Event.source =
       ["story_generator", "critic", "reviser", "critic", "reviser",
        "grammar_checker", "tone_checker"] ++
         (if SessionState.get (StoryFlow.stage3 oToneNeg []).2 "tone_check_result" ==
             some "negative" then ["story_generator"] else [])) := by
  exact ⟨⟨by decide, claim_C8.2.2.1 oAllW [] (by decide) (by decide)⟩,
    ⟨by decide, claim_C8.2.2.2 oToneNeg [] (by decide)⟩⟩

/-- C9: in Pipeline A, whenever `tone_check_result` is anything other than
exactly `"negative"` when the branch is evaluated (absence included, since
`state.get(...)` yields no value then), the branch takes the no-retry path
and the workflow runs to its normal end: all three stages' events are
yielded, the run is not halted, and the story generator is invoked exactly
once. -/
theorem claim_C9 (o : Oracle) (s : SessionState)
    (h1 : stateHasNonEmpty (StoryFlow.stage1 o s).2 "current_story" = true)
    (h2 : SessionState.get (StoryFlow.stage3 o s).2 "tone_check_result" ≠ some "negative") :
    StoryFlow.runStoryFlow o s =
      ((StoryFlow.stage1 o s).1 ++ (StoryFlow.stage2 o s).1 ++ (StoryFlow.stage3 o s).1,
        (StoryFlow.stage3 o s).2) ∧
    countInvocations (StoryFlow.runStoryFlow o s).1 "story_generator" = 1 := by
  have hb : (SessionState.get (StoryFlow.stage3 o s).2 "tone_check_result" ==
      some "negative") = false := by
    simpa using h2
  constructor
  · rw [runStoryFlow_eq_stages, h1, hb]
    simp
  · rw [runStoryFlow_eq_stages, h1, hb]
    simp [countInvocations_append, story_stage1_count_sg, story_stage2_count_sg,
      story_stage3_count_sg]

/-- C9 (witness): a concrete run whose tone check reports `"positive"`. -/
theorem claim_C9_witness :
    stateHasNonEmpty (StoryFlow.stage1 oTonePos []).2 "current_story" = true ∧
    SessionState.get (StoryFlow.stage3 oTonePos []).2 "tone_check_result" ≠ some "negative" ∧
    StoryFlow.runStoryFlow oTonePos [] =
      ((StoryFlow.stage1 oTonePos []).1 ++ (StoryFlow.stage2 oTonePos []).1 ++
          (StoryFlow.stage3 oTonePos []).1, (StoryFlow.stage3 oTonePos []).2) ∧
    countInvocations (StoryFlow.runStoryFlow oTonePos []).1 "story_generator" = 1 := by
  refine ⟨by decide, by decide, ?_, ?_⟩
  · exact (claim_C9 oTonePos [] (by decide) (by decide)).1
  · exact (claim_C9 oTonePos [] (by decide) (by decide)).2

/-- C10: Pipeline B's post-stage check after the final HTML/review loop
inspects only `html_code`: whenever the two earlier stage checks pass and
`html_code` is present and non-empty, the Orchestrator completes normally
— all three stages' events are yielded and the HTML and review units each
ran three times — even when `review_result` is absent or empty, i.e. a
failure of the last work unit is undetected by the gating. -/
theorem claim_C10 (o : Oracle) (s : SessionState)
    (h1 : stateHasNonEmpty (BlogGen.stage1 o s).2 "blog_structure" = true)
    (h2 : stateHasNonEmpty (BlogGen.stage2 o s).2 "blog_content" = true)
    (h3 : stateHasNonEmpty (BlogGen.stage3 o s).2 "html_code" = true)
    (h4 : stateHasNonEmpty (BlogGen.stage3 o s).2 "review_result" = false) :
    BlogGen.runBlogGenerator o s =
      ((BlogGen.stage1 o s).1 ++ (BlogGen.stage2 o s).1 ++ (BlogGen.stage3 o s).1,
        (BlogGen.stage3 o s).2) ∧
    countInvocations (BlogGen.runBlogGenerator o s).1 "HTML_Generator" = 3 ∧
    countInvocations (BlogGen.runBlogGenerator o s).1 "Review_Agent" = 3 := by
  refine ⟨?_, ?_, ?_⟩
  · rw [runBlogGenerator_eq_stages, h1, h2]
    simp
  · rw [runBlogGenerator_eq_stages, h1, h2]
    simp [countInvocations_append, blog_stage1_count_html, blog_stage2_count_html,
      blog_stage3_count_html]
  · rw [runBlogGenerator_eq_stages, h1, h2]
    simp [countInvocations_append, blog_stage1_count_rev, blog_stage2_count_rev,
      blog_stage3_count_rev]

/-- C10 (witness): a concrete run in which the review agent produces only
empty output, so `review_result` is empty, yet the run completes all
stages. -/
theorem claim_C10_witness :
    stateHasNonEmpty (BlogGen.stage1 oReviewFail []).2 "blog_structure" = true ∧
    stateHasNonEmpty (BlogGen.stage2 oReviewFail []).2 "blog_content" = true ∧
    stateHasNonEmpty (BlogGen.stage3 oReviewFail []).2 "html_code" = true ∧
    stateHasNonEmpty (BlogGen.stage3 oReviewFail []).2 "review_result" = false ∧
    BlogGen.runBlogGenerator oReviewFail [] =
      ((BlogGen.stage1 oReviewFail []).1 ++ (BlogGen.stage2 oReviewFail []).1 ++
          (BlogGen.stage3 oReviewFail []).1, (BlogGen.stage3 oReviewFail []).2) ∧
    countInvocations (BlogGen.runBlogGenerator oReviewFail []).1 "Review_Agent" = 3 := by
  refine ⟨by decide, by decide, by decide, by decide, ?_, ?_⟩
  · exact (claim_C10 oReviewFail [] (by decide) (by decide) (by decide) (by decide)).1
  · exact (claim_C10 oReviewFail [] (by decide) (by decide) (by decide) (by decide)).2.2

/-- C7 (counterexample): in a fully successful Pipeline B run from the
empty state, the consumer's returned payload is the first final event's
payload — the title generator's output — and not the last stage's output
key value: here it returns `"Title_Generator/1"` while `review_result`
holds `"Review_Agent/14"`. -/
theorem claim_C7_counterexample :
    (BlogGen.call_agent oTrace "testing" []).1.2 = some "Title_Generator/1" ∧
    SessionState.get (BlogGen.call_agent oTrace "testing" []).2 "review_result" =
      some "Review_Agent/14" ∧
    stateHasNonEmpty (BlogGen.call_agent oTrace "testing" []).2 "review_result" = true ∧
    (BlogGen.call_agent oTrace "testing" []).1.2 ≠
      SessionState.get (BlogGen.call_agent oTrace "testing" []).2 "review_result" := by
  decide

/-- C7 (amended): for every successful Pipeline B run (every work unit
answers non-empty text) started on topic `"testing"`, the final Session
State contains all of `blog_title`, `blog_structure`, `blog_content`,
`optimized_blog_content`, `html_code` and `review_result` non-empty, the
blog generator writes `blog_content` three times with the final value
retained, and the consumer's returned payload equals the payload of the
first final event of the stream — the title generator's output — not the
last stage's output key value. -/
theorem claim_C7_amended (o : Oracle) (s : SessionState) (ho : ∀ nm st, o nm st ≠ "") :
    (∀ k ∈ (["blog_title", "blog_structure", "blog_content", "optimized_blog_content",
        "html_code", "review_result"] : List String),
      stateHasNonEmpty (BlogGen.call_agent o "testing" s).2 k = true) ∧
    countInvocations
        (BlogGen.runBlogGenerator o (SessionState.set s "blog_topic" "testing")).1
        "Blog_Generator" = 3 ∧
    SessionState.get (BlogGen.call_agent o "testing" s).2 "blog_content" =
      lastPayload
        (BlogGen.runBlogGenerator o (SessionState.set s "blog_topic" "testing")).1
        "Blog_Generator" ∧
    (BlogGen.call_agent o "testing" s).1.2 =
      some (o "Title_Generator" (SessionState.set s "blog_topic" "testing")) := by
  have hbt1 : stateHasNonEmpty
      (BlogGen.stage1 o (SessionState.set s "blog_topic" "testing")).2 "blog_title" = true :=
    runSeq_key o ho _ _ _ (Or.inr (by decide))
  have h1 : stateHasNonEmpty
      (BlogGen.stage1 o (SessionState.set s "blog_topic" "testing")).2 "blog_structure" = true :=
    runSeq_key o ho _ _ _ (Or.inr (by decide))
  have hbt2 : stateHasNonEmpty
      (BlogGen.stage2 o (SessionState.set s "blog_topic" "testing")).2 "blog_title" = true :=
    runLoopIter_key o ho _ _ _ _ (Or.inl hbt1)
  have hbs2 : stateHasNonEmpty
      (BlogGen.stage2 o (SessionState.set s "blog_topic" "testing")).2 "blog_structure" = true :=
    runLoopIter_key o ho _ _ _ _ (Or.inl h1)
  have h2 : stateHasNonEmpty
      (BlogGen.stage2 o (SessionState.set s "blog_topic" "testing")).2 "blog_content" = true :=
    runLoopIter_key o ho _ _ _ _ (Or.inr ⟨by decide, by decide⟩)
  have hopt2 : stateHasNonEmpty
      (BlogGen.stage2 o (SessionState.set s "blog_topic" "testing")).2
        "optimized_blog_content" = true :=
    runLoopIter_key o ho _ _ _ _ (Or.inr ⟨by decide, by decide⟩)
  have hrun : BlogGen.runBlogGenerator o (SessionState.set s "blog_topic" "testing") =
      ((BlogGen.stage1 o (SessionState.set s "blog_topic" "testing")).1 ++
          (BlogGen.stage2 o (SessionState.set s "blog_topic" "testing")).1 ++
          (BlogGen.stage3 o (SessionState.set s "blog_topic" "testing")).1,
        (BlogGen.stage3 o (SessionState.set s "blog_topic" "testing")).2) := by
    rw [runBlogGenerator_eq_stages, h1, h2]
    simp
  have hst : (BlogGen.call_agent o "testing" s).2 =
      (BlogGen.stage3 o (SessionState.set s "blog_topic" "testing")).2 := by
    show (BlogGen.runBlogGenerator o (SessionState.set s "blog_topic" "testing")).2 = _
    rw [hrun]
  refine ⟨?_, ?_, ?_, ?_⟩
  · intro k hk
    rw [hst]
    fin_cases hk
    · exact runLoopIter_key o ho _ _ _ _ (Or.inl hbt2)
    · exact runLoopIter_key o ho _ _ _ _ (Or.inl hbs2)
    · exact runLoopIter_key o ho _ _ _ _ (Or.inl h2)
    · exact runLoopIter_key o ho _ _ _ _ (Or.inl hopt2)
    · exact runLoopIter_key o ho _ _ _ _ (Or.inr ⟨by decide, by decide⟩)
    · exact runLoopIter_key o ho _ _ _ _ (Or.inr ⟨by decide, by decide⟩)
  · rw [hrun]
    simp [countInvocations_append, blog_stage1_count_bg, blog_stage2_count_bg,
      blog_stage3_count_bg]
  · rw [hst, hrun]
    rfl
  · have hev : (BlogGen.call_agent o "testing" s).1 =
        consumeEvents
          (BlogGen.runBlogGenerator o (SessionState.set s "blog_topic" "testing")).1 := rfl
    rw [hev, hrun]
    rfl

/-- C7 (witness): the amended statement exercised with the constant
oracle, whose every answer is the non-empty `"w"`. -/
theorem claim_C7_witness :
    (∀ nm st, oAllW nm st ≠ "") ∧
    stateHasNonEmpty (BlogGen.call_agent oAllW "testing" []).2 "review_result" = true ∧
    countInvocations
        (BlogGen.runBlogGenerator oAllW (SessionState.set [] "blog_topic" "testing")).1
        "Blog_Generator" = 3 ∧
    SessionState.get (BlogGen.call_agent oAllW "testing" []).2 "blog_content" =
      lastPayload
        (BlogGen.runBlogGenerator oAllW (SessionState.set [] "blog_topic" "testing")).1
        "Blog_Generator" ∧
    (BlogGen.call_agent oAllW "testing" []).1.2 =
      some (oAllW "Title_Generator" (SessionState.set [] "blog_topic" "testing")) := by
  have ho : ∀ nm st, oAllW nm st ≠ "" := fun nm st => by
    show ("w" : String) ≠ ""
    decide
  refine ⟨ho, ?_, (claim_C7_amended oAllW [] ho).2.1, (claim_C7_amended oAllW [] ho).2.2.1,
    (claim_C7_amended oAllW [] ho).2.2.2⟩
  exact (claim_C7_amended oAllW [] ho).1 "review_result" (by decide)
